import Mathlib

/-!
Shallow embedding of the `nexus-zenoh` extension core
(`src/extension/src/{state,ops,discovery,main}.rs`).

Modelling conventions:
* `DateTime<Utc>` timestamps are `Int` milliseconds since the epoch;
  chrono's `Duration::num_seconds` (truncation toward zero of a
  millisecond difference) is `Int.tdiv · 1000`.
* `u64`/`usize` counters are `Nat` (no claim depends on wrap-around).
* `serde_json::Value` is the inductive `JValue`; object field lookup,
  `as_str` and `as_u64` mirror serde's accessors.
* `HashMap<String, _>` collections are association lists
  `List (String × _)` with `List.lookup`; insertion, removal and
  in-place update are the evident list operations.
* `watch::Sender<bool>` cancellation handles are `Nat` tokens; an
  operation's outgoing `send(true)` signals are collected in a list.
* Background tasks (the zenoh listener loops) are external producers;
  their only state effect, `Subscription::push`, is modelled directly.
-/

/-- Model of `serde_json::Value`. Numbers are integers (all numeric
fields in this protocol are integral). -/
inductive JValue where
  | null : JValue
  | bool (b : Bool) : JValue
  | num (n : Int) : JValue
  | str (s : String) : JValue
  | arr (elems : List JValue) : JValue
  | obj (fields : List (String × JValue)) : JValue

namespace JValue

/-- `Value::get(key)` on an object; `None` on non-objects. -/
def get (v : JValue) (key : String) : Option JValue :=
  match v with
  | obj fields => fields.lookup key
  | _ => none

/-- `Value::as_str`. -/
def as_str : JValue → Option String
  | str s => some s
  | _ => none

/-- `Value::as_u64`: integral and non-negative. -/
def as_u64 : JValue → Option Nat
  | num n => if 0 ≤ n then some n.toNat else none
  | _ => none

end JValue

/-- Metadata tracked per discovered key expression (`state.rs`). -/
structure TopicMeta where
  key_expr : String
  first_seen : Int
  last_seen : Int
  sample_count : Nat
  total_payload_bytes : Nat
  last_encoding : String
deriving DecidableEq, Repr

namespace TopicMeta

/-- `TopicMeta::new` (the caller supplies `now`, which the source reads
from the clock). -/
def new (key_expr : String) (encoding : String) (payload_len : Nat)
    (now : Int) : TopicMeta :=
  { key_expr := key_expr
    first_seen := now
    last_seen := now
    sample_count := 1
    total_payload_bytes := payload_len
    last_encoding := encoding }

/-- `TopicMeta::update`. -/
def update (m : TopicMeta) (encoding : String) (payload_len : Nat)
    (now : Int) : TopicMeta :=
  { m with
    last_seen := now
    sample_count := m.sample_count + 1
    total_payload_bytes := m.total_payload_bytes + payload_len
    last_encoding := encoding }

/-- `TopicMeta::avg_payload_size`. -/
def avg_payload_size (m : TopicMeta) : Nat :=
  if m.sample_count = 0 then 0 else m.total_payload_bytes / m.sample_count

end TopicMeta

/-- A single buffered sample from a subscription (`state.rs`). -/
structure BufferedSample where
  key_expr : String
  payload_b64 : String
  payload_str : Option String
  encoding : String
  timestamp : Int
deriving DecidableEq, Repr

/-- Serde serialization of `BufferedSample`
(`skip_serializing_if = "Option::is_none"` on `payload_str`). -/
def BufferedSample.toJson (s : BufferedSample) : JValue :=
  .obj ([("key_expr", .str s.key_expr), ("payload_b64", .str s.payload_b64)]
    ++ (match s.payload_str with
        | some t => [("payload_str", JValue.str t)]
        | none => [])
    ++ [("encoding", .str s.encoding), ("timestamp", .num s.timestamp)])

/-- An active subscription with a bounded ring buffer (`state.rs`).
The `VecDeque` buffer is a list whose head is the front (oldest);
`cancel` is the watch-channel token of its collector task. -/
structure Subscription where
  key_expr : String
  buffer : List BufferedSample
  buffer_capacity : Nat
  overflow_count : Nat
  total_received : Nat
  created_at : Int
  cancel : Nat
deriving DecidableEq, Repr

namespace Subscription

/-- `Subscription::new` (the caller supplies `now` for `created_at`). -/
def new (key_expr : String) (buffer_capacity : Nat) (cancel : Nat)
    (now : Int) : Subscription :=
  { key_expr := key_expr
    buffer := []
    buffer_capacity := buffer_capacity
    overflow_count := 0
    total_received := 0
    created_at := now
    cancel := cancel }

/-- `Subscription::push`: increment `total_received`; if the buffer is
full, pop the front and count an overflow; append at the back. -/
def push (s : Subscription) (sample : BufferedSample) : Subscription :=
  let s := { s with total_received := s.total_received + 1 }
  if s.buffer_capacity ≤ s.buffer.length then
    { s with
      buffer := s.buffer.tail ++ [sample]
      overflow_count := s.overflow_count + 1 }
  else
    { s with buffer := s.buffer ++ [sample] }

/-- `Subscription::drain(limit)`: remove and return the first
`min limit len` entries. -/
def drain (s : Subscription) (limit : Nat) : List BufferedSample × Subscription :=
  let n := min limit s.buffer.length
  (s.buffer.take n, { s with buffer := s.buffer.drop n })

end Subscription

/-- One mutation of a subscription: a collector push or a poll drain. -/
inductive SubOp where
  | push (sample : BufferedSample) : SubOp
  | drain (limit : Nat) : SubOp

/-- Run a sequence of pushes and drains; also return the total number
of samples handed out by the drains. -/
def runOps (s : Subscription) : List SubOp → Subscription × Nat
  | [] => (s, 0)
  | .push sample :: ops => runOps (s.push sample) ops
  | .drain limit :: ops =>
      let r := s.drain limit
      let rest := runOps r.2 ops
      (rest.1, r.1.length + rest.2)

/-- Run a sequence of drains, concatenating everything returned. -/
def drainSeq (s : Subscription) : List Nat → List BufferedSample × Subscription
  | [] => ([], s)
  | limit :: ls =>
      let r := s.drain limit
      let rest := drainSeq r.2 ls
      (r.1 ++ rest.1, rest.2)

/-- `TOPIC_EXPIRY_SECS` from `discovery.rs`. -/
def TOPIC_EXPIRY_SECS : Int := 30

/-- chrono `Duration::num_seconds` on a millisecond difference:
whole seconds, truncated toward zero. -/
def numSeconds (ms : Int) : Int := ms.tdiv 1000

/-- The body of the discovery cleanup task (`discovery.rs`):
`topics.retain(|_, meta| (now - meta.last_seen).num_seconds() < TOPIC_EXPIRY_SECS)`. -/
def expireTopics (now : Int) (topics : List (String × TopicMeta)) :
    List (String × TopicMeta) :=
  topics.filter (fun p => numSeconds (now - p.2.last_seen) < TOPIC_EXPIRY_SECS)

/-- Top-level shared state (`state.rs`), normally behind `Arc<RwLock>`. -/
structure AppState where
  topics : List (String × TopicMeta)
  subscriptions : List (String × Subscription)
  discovery_active : Bool
  discovery_cancel : Option Nat
  discovery_key_expr : String
deriving DecidableEq, Repr

/-- `AppState::new`. -/
def AppState.new : AppState :=
  { topics := []
    subscriptions := []
    discovery_active := false
    discovery_cancel := none
    discovery_key_expr := "" }

/-- Key-preserving in-place update of an association list
(`HashMap::get_mut` followed by mutation). -/
def mapUpdate {α : Type} (k : String) (v : α) (m : List (String × α)) :
    List (String × α) :=
  m.map (fun p => if p.1 = k then (k, v) else p)

/-- Removal from an association list (`HashMap::remove`). -/
def mapRemove {α : Type} (k : String) (m : List (String × α)) :
    List (String × α) :=
  m.filter (fun p => ¬ p.1 = k)

/-- The zenoh session facts read by `op_session_info`: identity plus the
`ZENOH_CONFIG` environment lookup. External collaborator data. -/
structure Session where
  zid : String
  peers : List String
  routers : List String
  config_source : String

/-- Result of one operation handler (`ops.rs`): the
`Result<Value, String>`, the state after the call, and the cancel
tokens to which `send(true)` was issued. -/
structure OpOut where
  result : Except String JValue
  state : AppState
  signals : List Nat

/-- `op_session_info` (`ops.rs`). -/
def op_session_info (session : Session) (st : AppState) : OpOut :=
  { result := .ok (.obj
      [("zid", .str session.zid),
       ("peers", .arr (session.peers.map .str)),
       ("routers", .arr (session.routers.map .str)),
       ("config_source", .str session.config_source),
       ("connected", .bool true)])
    state := st
    signals := [] }

/-- `op_start_discovery` (`ops.rs`): default the pattern to `"**"`,
cancel any prior discovery pair, clear the topic registry, mark active,
record the pattern, and install the fresh cancel token produced by
`spawn_discovery`. -/
def op_start_discovery (input : JValue) (freshCancel : Nat)
    (st : AppState) : OpOut :=
  let key_expr := ((input.get "key_expr").bind JValue.as_str).getD "**"
  let signals := match st.discovery_cancel with
    | some c => [c]
    | none => []
  { result := .ok (.obj [("started", .bool true), ("key_expr", .str key_expr)])
    state := { st with
      topics := []
      discovery_active := true
      discovery_key_expr := key_expr
      discovery_cancel := some freshCancel }
    signals := signals }

/-- `op_stop_discovery` (`ops.rs`). -/
def op_stop_discovery (st : AppState) : OpOut :=
  let signals := match st.discovery_cancel with
    | some c => [c]
    | none => []
  { result := .ok (.obj [("stopped", .bool true)])
    state := { st with
      topics := []
      discovery_active := false
      discovery_key_expr := ""
      discovery_cancel := none }
    signals := signals }

/-- One topic entry of the `op_get_topics` response. `rate_hz` is an
`f64` computation in the source and is not modelled (no claim reads
it); the field is omitted here. -/
def topicToJson (now : Int) (t : TopicMeta) : JValue :=
  let silent_secs := numSeconds (now - t.last_seen)
  .obj [("key_expr", .str t.key_expr),
        ("first_seen", .num t.first_seen),
        ("last_seen", .num t.last_seen),
        ("sample_count", .num t.sample_count),
        ("avg_payload_size", .num t.avg_payload_size),
        ("last_encoding", .str t.last_encoding),
        ("stale", .bool (5 ≤ silent_secs)),
        ("silent_secs", .num silent_secs)]

/-- `op_get_topics` (`ops.rs`). -/
def op_get_topics (input : JValue) (now : Int) (st : AppState) : OpOut :=
  let pfx := ((input.get "prefix").bind JValue.as_str).getD ""
  let chosen := st.topics.filter
    (fun p => pfx.isEmpty || p.2.key_expr.startsWith pfx)
  { result := .ok (.obj
      [("discovery_active", .bool st.discovery_active),
       ("topic_count", .num chosen.length),
       ("topics", .arr (chosen.map (fun p => topicToJson now p.2)))])
    state := st
    signals := [] }

/-- `op_subscribe` (`ops.rs`): `key_expr` is required, `buffer_size`
defaults to 100; a fresh id and a fresh cancel token are generated by
the caller (uuid / `watch::channel`); the collector task it spawns is an
external producer whose pushes are modelled by `Subscription.push`. -/
def op_subscribe (input : JValue) (freshId : String) (freshCancel : Nat)
    (now : Int) (st : AppState) : OpOut :=
  match (input.get "key_expr").bind JValue.as_str with
  | none =>
    { result := .error "missing required field: key_expr"
      state := st
      signals := [] }
  | some key_expr =>
    let buffer_size := ((input.get "buffer_size").bind JValue.as_u64).getD 100
    let sub := Subscription.new key_expr buffer_size freshCancel now
    { result := .ok (.obj
        [("sub_id", .str freshId),
         ("key_expr", .str key_expr),
         ("buffer_size", .num buffer_size)])
      state := { st with subscriptions := st.subscriptions ++ [(freshId, sub)] }
      signals := [] }

/-- `op_unsubscribe` (`ops.rs`). -/
def op_unsubscribe (input : JValue) (st : AppState) : OpOut :=
  match (input.get "sub_id").bind JValue.as_str with
  | none =>
    { result := .error "missing required field: sub_id"
      state := st
      signals := [] }
  | some sub_id =>
    match st.subscriptions.lookup sub_id with
    | some sub =>
      { result := .ok (.obj
          [("removed", .bool true), ("sub_id", .str sub_id)])
        state := { st with subscriptions := mapRemove sub_id st.subscriptions }
        signals := [sub.cancel] }
    | none =>
      { result := .error ("subscription not found: " ++ sub_id)
        state := st
        signals := [] }

/-- `op_poll` (`ops.rs`): `sub_id` required, `limit` defaults to 10;
drain, then report the drained samples, the overflow count and the
remaining buffered count. -/
def op_poll (input : JValue) (st : AppState) : OpOut :=
  match (input.get "sub_id").bind JValue.as_str with
  | none =>
    { result := .error "missing required field: sub_id"
      state := st
      signals := [] }
  | some sub_id =>
    let limit := ((input.get "limit").bind JValue.as_u64).getD 10
    match st.subscriptions.lookup sub_id with
    | some sub =>
      let r := sub.drain limit
      { result := .ok (.obj
          [("sub_id", .str sub_id),
           ("samples", .arr (r.1.map BufferedSample.toJson)),
           ("sample_count", .num r.1.length),
           ("overflow_count", .num r.2.overflow_count),
           ("buffered_remaining", .num r.2.buffer.length)])
        state := { st with subscriptions := mapUpdate sub_id r.2 st.subscriptions }
        signals := [] }
    | none =>
      { result := .error ("subscription not found: " ++ sub_id)
        state := st
        signals := [] }

/-- `op_list_subscriptions` (`ops.rs`). -/
def op_list_subscriptions (st : AppState) : OpOut :=
  let subs := st.subscriptions.map (fun p =>
    JValue.obj
      [("sub_id", .str p.1),
       ("key_expr", .str p.2.key_expr),
       ("buffered", .num p.2.buffer.length),
       ("buffer_capacity", .num p.2.buffer_capacity),
       ("overflow_count", .num p.2.overflow_count),
       ("total_received", .num p.2.total_received),
       ("created_at", .num p.2.created_at)])
  { result := .ok (.obj
      [("count", .num subs.length), ("subscriptions", .arr subs)])
    state := st
    signals := [] }

/-- A parsed JSON-RPC request (`main.rs`). -/
structure JsonRpcRequest where
  method : String
  params : JValue
  id : Nat

/-- JSON-RPC error payload (`main.rs`). -/
structure JsonRpcError where
  code : Int
  message : String
deriving DecidableEq

/-- JSON-RPC response (`main.rs`). -/
structure JsonRpcResponse where
  jsonrpc : String
  result : Option JValue
  error : Option JsonRpcError
  id : Nat

/-- `ok_response` (`main.rs`). -/
def ok_response (id : Nat) (data : JValue) : JsonRpcResponse :=
  { jsonrpc := "2.0"
    result := some (.obj
      [("success", .bool true), ("data", data), ("message", .null)])
    error := none
    id := id }

/-- `err_response` (`main.rs`). -/
def err_response (id : Nat) (code : Int) (message : String) : JsonRpcResponse :=
  { jsonrpc := "2.0"
    result := none
    error := some { code := code, message := message }
    id := id }

/-- `handle_execute` (`main.rs`): sub-dispatch on the `operation` field
(defaulting to `""`), with `input` defaulting to the empty object;
`Ok` wraps in the success envelope, `Err` becomes code −32000. The
fresh uuid / cancel token / clock reads are caller-supplied. -/
def handle_execute (req : JsonRpcRequest) (session : Session)
    (freshId : String) (freshCancel : Nat) (now : Int) (st : AppState) :
    JsonRpcResponse × AppState × List Nat :=
  let operation := ((req.params.get "operation").bind JValue.as_str).getD ""
  let input := (req.params.get "input").getD (.obj [])
  let out : OpOut :=
    if operation = "session_info" then op_session_info session st
    else if operation = "start_discovery" then
      op_start_discovery input freshCancel st
    else if operation = "stop_discovery" then op_stop_discovery st
    else if operation = "get_topics" then op_get_topics input now st
    else if operation = "subscribe" then
      op_subscribe input freshId freshCancel now st
    else if operation = "unsubscribe" then op_unsubscribe input st
    else if operation = "poll" then op_poll input st
    else if operation = "list_subscriptions" then op_list_subscriptions st
    else
      { result := .error ("Unknown operation: " ++ operation)
        state := st
        signals := [] }
  match out.result with
  | .ok data => (ok_response req.id data, out.state, out.signals)
  | .error msg => (err_response req.id (-32000) msg, out.state, out.signals)

/-- `handle_request` (`main.rs`): dispatch on the method name.
`shutdown` cancels discovery and every collector and drains the
subscription store; an unrecognized method yields code −32601. -/
def handle_request (req : JsonRpcRequest) (session : Session)
    (freshId : String) (freshCancel : Nat) (now : Int) (st : AppState) :
    JsonRpcResponse × AppState × List Nat :=
  if req.method = "initialize" then
    ({ jsonrpc := "2.0"
       result := some (.obj [("ready", .bool true)])
       error := none
       id := req.id }, st, [])
  else if req.method = "shutdown" then
    let sigs :=
      (match st.discovery_cancel with
       | some c => [c]
       | none => []) ++ st.subscriptions.map (fun p => p.2.cancel)
    ({ jsonrpc := "2.0"
       result := some (.obj [])
       error := none
       id := req.id },
     { st with subscriptions := [], discovery_cancel := none }, sigs)
  else if req.method = "execute" then
    handle_execute req session freshId freshCancel now st
  else
    (err_response req.id (-32601) ("Unknown method: " ++ req.method), st, [])

/-- Outcome of parsing one non-empty input line: either serde fails
with message `e`, or it yields a request. -/
inductive ParsedLine where
  | parseFailure (e : String) : ParsedLine
  | request (req : JsonRpcRequest) : ParsedLine

/-- One iteration of the command loop of `main` (`main.rs`) on a
non-empty line: the single response written, the state and signals
after handling, and whether the loop breaks (only after `shutdown`).
A parse failure is answered with code −32700 under id 0 and the loop
continues. -/
def loopIter (line : ParsedLine) (session : Session) (freshId : String)
    (freshCancel : Nat) (now : Int) (st : AppState) :
    JsonRpcResponse × AppState × List Nat × Bool :=
  match line with
  | .parseFailure e =>
      (err_response 0 (-32700) ("Parse error: " ++ e), st, [], false)
  | .request req =>
      let is_shutdown := req.method = "shutdown"
      let r := handle_request req session freshId freshCancel now st
      (r.1, r.2.1, r.2.2, is_shutdown)

/-! Helper lemmas shared by the claim theorems. -/

theorem push_spec (s : Subscription) (x : BufferedSample) :
    s.push x =
      if s.buffer_capacity ≤ s.buffer.length then
        { s with
          total_received := s.total_received + 1
          buffer := s.buffer.tail ++ [x]
          overflow_count := s.overflow_count + 1 }
      else
        { s with
          total_received := s.total_received + 1
          buffer := s.buffer ++ [x] } := rfl

theorem push_full_spec (s : Subscription) (x : BufferedSample)
    (hcap : 1 ≤ s.buffer_capacity) (h : s.buffer_capacity ≤ s.buffer.length) :
    (s.push x).buffer = s.buffer.tail ++ [x] ∧
    (s.push x).buffer.length = s.buffer.length ∧
    (s.push x).overflow_count = s.overflow_count + 1 ∧
    (s.push x).total_received = s.total_received + 1 ∧
    (s.push x).buffer_capacity = s.buffer_capacity := by
  rw [push_spec, if_pos h]
  refine ⟨rfl, ?_, rfl, rfl, rfl⟩
  simp [List.length_tail]
  omega

theorem push_slack_spec (s : Subscription) (x : BufferedSample)
    (h : s.buffer.length < s.buffer_capacity) :
    (s.push x).buffer = s.buffer ++ [x] ∧
    (s.push x).buffer.length = s.buffer.length + 1 ∧
    (s.push x).overflow_count = s.overflow_count ∧
    (s.push x).total_received = s.total_received + 1 ∧
    (s.push x).buffer_capacity = s.buffer_capacity := by
  rw [push_spec, if_neg (by omega : ¬ s.buffer_capacity ≤ s.buffer.length)]
  exact ⟨rfl, by simp, rfl, rfl, rfl⟩

theorem drain_spec (s : Subscription) (limit : Nat) :
    (s.drain limit).1 = s.buffer.take (min limit s.buffer.length) ∧
    (s.drain limit).2.buffer = s.buffer.drop (min limit s.buffer.length) ∧
    (s.drain limit).2.overflow_count = s.overflow_count ∧
    (s.drain limit).2.total_received = s.total_received ∧
    (s.drain limit).2.buffer_capacity = s.buffer_capacity :=
  ⟨rfl, rfl, rfl, rfl, rfl⟩

theorem runOps_push_step (s : Subscription) (x : BufferedSample)
    (ops : List SubOp) :
    runOps s (SubOp.push x :: ops) = runOps (s.push x) ops := rfl

@[simp] theorem new_buffer (ke : String) (C tok : Nat) (t : Int) :
    (Subscription.new ke C tok t).buffer = [] := rfl

@[simp] theorem new_buffer_capacity (ke : String) (C tok : Nat) (t : Int) :
    (Subscription.new ke C tok t).buffer_capacity = C := rfl

@[simp] theorem new_overflow_count (ke : String) (C tok : Nat) (t : Int) :
    (Subscription.new ke C tok t).overflow_count = 0 := rfl

@[simp] theorem new_total_received (ke : String) (C tok : Nat) (t : Int) :
    (Subscription.new ke C tok t).total_received = 0 := rfl

theorem runOps_drain_step (s : Subscription) (limit : Nat)
    (ops : List SubOp) :
    runOps s (SubOp.drain limit :: ops) =
      ((runOps (s.drain limit).2 ops).1,
       (s.drain limit).1.length + (runOps (s.drain limit).2 ops).2) := rfl

/-- Core invariant of the subscription state machine: capacity is
constant, the buffer stays within capacity, and the received count
balances against overflows, drained samples and the live buffer. -/
theorem runOps_invariant (ops : List SubOp) (s : Subscription)
    (hcap : 1 ≤ s.buffer_capacity)
    (hlen : s.buffer.length ≤ s.buffer_capacity) :
    (runOps s ops).1.buffer_capacity = s.buffer_capacity ∧
    (runOps s ops).1.buffer.length ≤ s.buffer_capacity ∧
    (runOps s ops).1.total_received + s.overflow_count + s.buffer.length =
      s.total_received + (runOps s ops).1.overflow_count + (runOps s ops).2 +
        (runOps s ops).1.buffer.length := by
  induction ops generalizing s with
  | nil => exact ⟨rfl, hlen, by simp [runOps]⟩
  | cons op ops ih =>
    cases op with
    | push x =>
      rw [runOps_push_step]
      by_cases h : s.buffer_capacity ≤ s.buffer.length
      · obtain ⟨-, hl, ho, ht, hc⟩ := push_full_spec s x hcap h
        obtain ⟨ih1, ih2, ih3⟩ := ih (s.push x)
          (by rw [hc]; exact hcap) (by rw [hl, hc]; exact hlen)
        rw [hc] at ih1
        rw [hc] at ih2
        rw [hl, ho, ht] at ih3
        exact ⟨ih1, ih2, by omega⟩
      · obtain ⟨-, hl, ho, ht, hc⟩ := push_slack_spec s x (by omega)
        obtain ⟨ih1, ih2, ih3⟩ := ih (s.push x)
          (by rw [hc]; exact hcap) (by rw [hl, hc]; omega)
        rw [hc] at ih1
        rw [hc] at ih2
        rw [hl, ho, ht] at ih3
        exact ⟨ih1, ih2, by omega⟩
    | drain limit =>
      rw [runOps_drain_step]
      obtain ⟨hd1, hd2, hd3, hd4, hd5⟩ := drain_spec s limit
      obtain ⟨ih1, ih2, ih3⟩ := ih (s.drain limit).2
        (by rw [hd5]; exact hcap)
        (by rw [hd2, hd5]; exact le_trans (by simp) hlen)
      rw [hd5] at ih1
      rw [hd5] at ih2
      rw [hd2, hd3, hd4] at ih3
      have hlentake : (s.drain limit).1.length = min limit s.buffer.length := by
        rw [hd1]; simp
      have hlendrop :
          (s.buffer.drop (min limit s.buffer.length)).length =
            s.buffer.length - min limit s.buffer.length := by simp
      refine ⟨ih1, ih2, ?_⟩
      simp only [hlentake]
      rw [hlendrop] at ih3
      omega

/-- Effect of a pure push sequence: every push is received, the buffer
saturates at capacity, and each push beyond capacity overflows. -/
theorem runOps_pushList (xs : List BufferedSample) (s : Subscription)
    (hcap : 1 ≤ s.buffer_capacity)
    (hlen : s.buffer.length ≤ s.buffer_capacity) :
    (runOps s (xs.map SubOp.push)).1.total_received =
      s.total_received + xs.length ∧
    (runOps s (xs.map SubOp.push)).1.buffer.length =
      min (s.buffer.length + xs.length) s.buffer_capacity ∧
    (runOps s (xs.map SubOp.push)).1.overflow_count =
      s.overflow_count + (s.buffer.length + xs.length - s.buffer_capacity) := by
  induction xs generalizing s with
  | nil =>
    refine ⟨by simp [runOps], by simp [runOps]; omega, by simp [runOps]; omega⟩
  | cons x xs ih =>
    simp only [List.map_cons, runOps_push_step]
    by_cases h : s.buffer_capacity ≤ s.buffer.length
    · obtain ⟨-, hl, ho, ht, hc⟩ := push_full_spec s x hcap h
      obtain ⟨ih1, ih2, ih3⟩ := ih (s.push x)
        (by rw [hc]; exact hcap) (by rw [hl, hc]; exact hlen)
      rw [ht] at ih1
      rw [hl, hc] at ih2
      rw [ho, hc] at ih3
      refine ⟨by rw [ih1]; simp; omega, by rw [ih2]; simp; omega,
        by rw [ih3]; simp; omega⟩
    · obtain ⟨-, hl, ho, ht, hc⟩ := push_slack_spec s x (by omega)
      obtain ⟨ih1, ih2, ih3⟩ := ih (s.push x)
        (by rw [hc]; exact hcap) (by rw [hl, hc]; omega)
      rw [ht] at ih1
      rw [hl, hc] at ih2
      rw [ho, hc] at ih3
      refine ⟨by rw [ih1]; simp; omega, by rw [ih2]; simp; omega,
        by rw [ih3]; simp; omega⟩

/-- A drain sequence hands out a prefix of the buffer: what was handed
out followed by what remains is exactly the original buffer. -/
theorem drainSeq_partition (ls : List Nat) (s : Subscription) :
    (drainSeq s ls).1 ++ (drainSeq s ls).2.buffer = s.buffer := by
  induction ls generalizing s with
  | nil => simp [drainSeq]
  | cons limit ls ih =>
    simp only [drainSeq]
    rw [List.append_assoc, ih]
    exact List.take_append_drop _ _

/-- Draining with positive limits at least `length` many times empties
the buffer. -/
theorem drainSeq_empties (ls : List Nat) (s : Subscription)
    (hpos : ∀ l ∈ ls, 1 ≤ l) (hn : s.buffer.length ≤ ls.length) :
    (drainSeq s ls).2.buffer = [] := by
  induction ls generalizing s with
  | nil =>
    simp only [drainSeq]
    simp at hn
    exact hn
  | cons limit ls ih =>
    simp only [drainSeq]
    apply ih
    · intro l hl
      exact hpos l (List.mem_cons_of_mem _ hl)
    · have h1 : 1 ≤ limit := hpos limit (List.mem_cons_self _ _)
      have h2 : ((s.drain limit).2).buffer.length =
          s.buffer.length - min limit s.buffer.length := by
        rw [(drain_spec s limit).2.1]; simp
      simp only [List.length_cons] at hn
      omega

/-- chrono second truncation against the 30 s threshold: whole-second
comparison at the threshold agrees with millisecond comparison. -/
theorem numSeconds_lt_expiry (d : Int) :
    numSeconds d < TOPIC_EXPIRY_SECS ↔ d < 30000 := by
  unfold numSeconds TOPIC_EXPIRY_SECS
  constructor
  · intro h
    by_contra hc
    push_neg at hc
    rw [Int.tdiv_eq_ediv (by omega) (by norm_num)] at h
    omega
  · intro h
    rcases le_or_lt 0 d with h0 | h0
    · rw [Int.tdiv_eq_ediv h0 (by norm_num)]
      omega
    · have h1 : d = -(-d) := by ring
      rw [h1, Int.neg_tdiv]
      have h2 : 0 ≤ (-d).tdiv 1000 := Int.tdiv_nonneg (by omega) (by norm_num)
      omega

/-! Concrete samples used in scenario instances. -/

def sampleA : BufferedSample :=
  { key_expr := "demo/topic", payload_b64 := "QQ==", payload_str := some "A"
    encoding := "text/plain", timestamp := 1 }

def sampleB : BufferedSample :=
  { key_expr := "demo/topic", payload_b64 := "Qg==", payload_str := some "B"
    encoding := "text/plain", timestamp := 2 }

def sampleC : BufferedSample :=
  { key_expr := "demo/topic", payload_b64 := "Qw==", payload_str := some "C"
    encoding := "text/plain", timestamp := 3 }

def sampleD : BufferedSample :=
  { key_expr := "demo/topic", payload_b64 := "RA==", payload_str := some "D"
    encoding := "text/plain", timestamp := 4 }

def sampleE : BufferedSample :=
  { key_expr := "demo/topic", payload_b64 := "RQ==", payload_str := some "E"
    encoding := "text/plain", timestamp := 5 }

/-- The capacity-3 subscription of the spec's poll scenario after its
collector pushed A, B, C, D, E in order. -/
def scenarioSub : Subscription :=
  (runOps (Subscription.new "demo/topic" 3 7 0)
    ([sampleA, sampleB, sampleC, sampleD, sampleE].map SubOp.push)).1

/-- Shared state holding only the scenario subscription under id
`sub-1`. -/
def scenarioState : AppState :=
  { AppState.new with subscriptions := [("sub-1", scenarioSub)] }

@[simp] theorem as_u64_natCast (n : Nat) :
    JValue.as_u64 (.num (n : Int)) = some n := by
  simp [JValue.as_u64]

/-! Claim theorems. -/

/-- Claim C1, counterexample to the claim as stated: a subscription can
be created with capacity 0 (`buffer_size: 0` is accepted), and there a
single push leaves the buffer holding 1 > 0 entries while still
incrementing `overflow_count`, so both `length ≤ capacity` and
`total_received = overflow_count + drained + buffered` fail. -/
theorem c1_capacity_zero_counterexample :
    ¬ ((runOps (Subscription.new "demo/topic" 0 7 0) [SubOp.push sampleA]).1.buffer.length ≤
        (Subscription.new "demo/topic" 0 7 0).buffer_capacity) ∧
    ¬ ((runOps (Subscription.new "demo/topic" 0 7 0) [SubOp.push sampleA]).1.total_received =
        (runOps (Subscription.new "demo/topic" 0 7 0) [SubOp.push sampleA]).1.overflow_count +
        (runOps (Subscription.new "demo/topic" 0 7 0) [SubOp.push sampleA]).2 +
        (runOps (Subscription.new "demo/topic" 0 7 0) [SubOp.push sampleA]).1.buffer.length) := by
  decide

/-- Claim C1 (amended: for capacity C ≥ 1; at capacity 0 the code keeps
one entry and double-counts it, see the counterexample): after any
sequence of pushes and drains the buffer length is at most C; a push
finding the buffer at C entries evicts exactly the front entry and
increments `overflow_count` by one; `total_received` always equals
`overflow_count` plus samples ever drained plus samples buffered; and
after N > C pushes with no drains the buffer holds exactly C entries,
`overflow_count = N − C` and `total_received = N`. -/
theorem c1_subscription_invariants (ke : String) (C : Nat) (tok : Nat)
    (t : Int) (hC : 1 ≤ C) :
    (∀ ops : List SubOp,
      (runOps (Subscription.new ke C tok t) ops).1.buffer.length ≤ C ∧
      (runOps (Subscription.new ke C tok t) ops).1.total_received =
        (runOps (Subscription.new ke C tok t) ops).1.overflow_count +
          (runOps (Subscription.new ke C tok t) ops).2 +
          (runOps (Subscription.new ke C tok t) ops).1.buffer.length) ∧
    (∀ (s : Subscription) (x : BufferedSample),
      s.buffer_capacity = C → s.buffer.length = C →
      (s.push x).buffer = s.buffer.tail ++ [x] ∧
      (s.push x).overflow_count = s.overflow_count + 1 ∧
      (s.push x).total_received = s.total_received + 1) ∧
    (∀ xs : List BufferedSample, C < xs.length →
      (runOps (Subscription.new ke C tok t) (xs.map SubOp.push)).1.buffer.length = C ∧
      (runOps (Subscription.new ke C tok t) (xs.map SubOp.push)).1.overflow_count =
        xs.length - C ∧
      (runOps (Subscription.new ke C tok t) (xs.map SubOp.push)).1.total_received =
        xs.length) := by
  refine ⟨?_, ?_, ?_⟩
  · intro ops
    obtain ⟨h1, h2, h3⟩ := runOps_invariant ops (Subscription.new ke C tok t)
      (by simpa using hC) (by simp)
    simp only [new_buffer, new_buffer_capacity, new_overflow_count,
      new_total_received, List.length_nil] at h2 h3
    exact ⟨h2, by omega⟩
  · intro s x hcap hlen
    obtain ⟨hb, -, ho, ht, -⟩ := push_full_spec s x (by omega) (by omega)
    exact ⟨hb, ho, ht⟩
  · intro xs hN
    obtain ⟨h1, h2, h3⟩ := runOps_pushList xs (Subscription.new ke C tok t)
      (by simpa using hC) (by simp)
    simp only [new_buffer, new_buffer_capacity, new_overflow_count,
      new_total_received, List.length_nil] at h1 h2 h3
    refine ⟨by rw [h2]; omega, by rw [h3]; omega, by rw [h1]; omega⟩

/-- Witness for the amended C1 at capacity 3 after five pushes. -/
theorem c1_subscription_invariants_witness :
    1 ≤ 3 ∧
    (runOps (Subscription.new "demo/topic" 3 7 0)
      ([sampleA, sampleB, sampleC, sampleD, sampleE].map SubOp.push)).1.buffer.length = 3 :=
  ⟨by decide,
   ((c1_subscription_invariants "demo/topic" 3 7 0 (by decide)).2.2
     [sampleA, sampleB, sampleC, sampleD, sampleE] (by decide)).1⟩

/-- Claim C3: `drain(limit)` removes and returns exactly
`min limit length` entries from the front in arrival order, returns
nothing on an empty buffer, every drain sequence hands out a prefix of
the buffer (so no entry is ever returned twice), and enough positive
drains empty the buffer. -/
theorem c3_drain_semantics :
    (∀ (s : Subscription) (limit : Nat),
      (s.drain limit).1 = s.buffer.take (min limit s.buffer.length) ∧
      (s.drain limit).1.length = min limit s.buffer.length ∧
      (s.drain limit).2.buffer = s.buffer.drop (min limit s.buffer.length)) ∧
    (∀ (s : Subscription) (limit : Nat),
      s.buffer = [] → (s.drain limit).1 = []) ∧
    (∀ (s : Subscription) (ls : List Nat),
      (drainSeq s ls).1 ++ (drainSeq s ls).2.buffer = s.buffer) ∧
    (∀ (s : Subscription) (ls : List Nat),
      (∀ l ∈ ls, 1 ≤ l) → s.buffer.length ≤ ls.length →
      (drainSeq s ls).2.buffer = []) := by
  refine ⟨?_, ?_, ?_, ?_⟩
  · intro s limit
    refine ⟨(drain_spec s limit).1, ?_, (drain_spec s limit).2.1⟩
    rw [(drain_spec s limit).1]
    simp [List.length_take]
  · intro s limit h
    rw [(drain_spec s limit).1, h]
    simp
  · intro s ls
    exact drainSeq_partition ls s
  · intro s ls hpos hn
    exact drainSeq_empties ls s hpos hn

/-- Claim C4: the cleanup sweep keeps exactly the entries silent for
less than 30 s (at whole-second truncation this is silence below
30000 ms), leaves survivors unchanged and in place, a topic last seen
29 s ago survives, and one last seen 31 s ago is removed. -/
theorem c4_expiry_sweep :
    (∀ (now : Int) (topics : List (String × TopicMeta)) (k : String)
        (m : TopicMeta),
      ((k, m) ∈ expireTopics now topics ↔
        (k, m) ∈ topics ∧ ¬ 30000 ≤ now - m.last_seen)) ∧
    (∀ (now : Int) (topics : List (String × TopicMeta)),
      (expireTopics now topics).Sublist topics) ∧
    (∀ (now : Int) (k enc : String) (len : Nat),
      expireTopics now [(k, TopicMeta.new k enc len (now - 29000))] =
        [(k, TopicMeta.new k enc len (now - 29000))]) ∧
    (∀ (now : Int) (k enc : String) (len : Nat),
      expireTopics now [(k, TopicMeta.new k enc len (now - 31000))] = []) := by
  refine ⟨?_, ?_, ?_, ?_⟩
  · intro now topics k m
    simp only [expireTopics, List.mem_filter, decide_eq_true_eq,
      numSeconds_lt_expiry, Int.not_le]
  · intro now topics
    exact List.filter_sublist _
  · intro now k enc len
    have hc : numSeconds (now - (TopicMeta.new k enc len (now - 29000)).last_seen) <
        TOPIC_EXPIRY_SECS := by
      have h : now - (TopicMeta.new k enc len (now - 29000)).last_seen = 29000 := by
        simp [TopicMeta.new]
      rw [h]
      decide
    simp [expireTopics, hc]
  · intro now k enc len
    have hc : ¬ numSeconds (now - (TopicMeta.new k enc len (now - 31000)).last_seen) <
        TOPIC_EXPIRY_SECS := by
      have h : now - (TopicMeta.new k enc len (now - 31000)).last_seen = 31000 := by
        simp [TopicMeta.new]
      rw [h]
      decide
    simp [expireTopics, hc]



/-- Claim C2: `poll(id, limit)` drains up to `limit` entries from the
front of the buffer and returns the drained samples together with the
current `overflow_count` and the remaining buffered count; in the
concrete scenario (capacity 3, pushes A,B,C,D,E, limit 10) it returns
[C, D, E] with `overflow_count = 2` and `buffered_remaining = 0`. -/
theorem c2_poll_semantics :
    (∀ (st : AppState) (sub_id : String) (sub : Subscription) (limit : Nat),
      st.subscriptions.lookup sub_id = some sub →
      op_poll (.obj [("sub_id", .str sub_id), ("limit", .num (limit : Int))]) st =
        { result := .ok (.obj
            [("sub_id", .str sub_id),
             ("samples", .arr ((sub.buffer.take (min limit sub.buffer.length)).map
                BufferedSample.toJson)),
             ("sample_count", .num (min limit sub.buffer.length : Nat)),
             ("overflow_count", .num (sub.overflow_count : Nat)),
             ("buffered_remaining",
              .num ((sub.buffer.length - min limit sub.buffer.length : Nat) : Int))])
          state := { st with subscriptions := (mapUpdate sub_id
            { sub with buffer := sub.buffer.drop (min limit sub.buffer.length) }
            st.subscriptions) }
          signals := [] }) ∧
    op_poll (.obj [("sub_id", .str "sub-1"), ("limit", .num 10)]) scenarioState =
      { result := .ok (.obj
          [("sub_id", .str "sub-1"),
           ("samples", .arr [sampleC.toJson, sampleD.toJson, sampleE.toJson]),
           ("sample_count", .num 3),
           ("overflow_count", .num 2),
           ("buffered_remaining", .num 0)])
        state := { scenarioState with
          subscriptions := [("sub-1", { scenarioSub with buffer := [] })] }
        signals := [] } := by
  constructor
  · intro st sub_id sub limit h
    have hsid : (JValue.obj [("sub_id", .str sub_id), ("limit", .num (limit : Int))]).get
        "sub_id" = some (.str sub_id) := rfl
    have hlim : (JValue.obj [("sub_id", .str sub_id), ("limit", .num (limit : Int))]).get
        "limit" = some (.num (limit : Int)) := rfl
    simp [op_poll, hsid, hlim, JValue.as_str, h, Subscription.drain]
  · rfl

/-- Claim C5: starting discovery while one is running cancels the prior
pair, clears the topic registry, records the new pattern and marks
discovery active; two starts in a row with different patterns leave
exactly the second pattern active and an empty registry. -/
theorem c5_restart_discovery (st : AppState) (p1 p2 : String) (t1 t2 : Nat)
    (hp : p1 ≠ p2) :
    (op_start_discovery (.obj [("key_expr", .str p1)]) t1 st).state.discovery_key_expr
      = p1 ∧
    (op_start_discovery (.obj [("key_expr", .str p1)]) t1 st).state.discovery_active
      = true ∧
    (op_start_discovery (.obj [("key_expr", .str p1)]) t1 st).state.topics = [] ∧
    (op_start_discovery (.obj [("key_expr", .str p1)]) t1 st).state.discovery_cancel
      = some t1 ∧
    (op_start_discovery (.obj [("key_expr", .str p2)]) t2
      (op_start_discovery (.obj [("key_expr", .str p1)]) t1 st).state).signals = [t1] ∧
    (op_start_discovery (.obj [("key_expr", .str p2)]) t2
      (op_start_discovery (.obj [("key_expr", .str p1)]) t1 st).state).state.discovery_key_expr
      = p2 ∧
    (op_start_discovery (.obj [("key_expr", .str p2)]) t2
      (op_start_discovery (.obj [("key_expr", .str p1)]) t1 st).state).state.discovery_key_expr
      ≠ p1 ∧
    (op_start_discovery (.obj [("key_expr", .str p2)]) t2
      (op_start_discovery (.obj [("key_expr", .str p1)]) t1 st).state).state.discovery_active
      = true ∧
    (op_start_discovery (.obj [("key_expr", .str p2)]) t2
      (op_start_discovery (.obj [("key_expr", .str p1)]) t1 st).state).state.topics = [] ∧
    (op_start_discovery (.obj [("key_expr", .str p2)]) t2
      (op_start_discovery (.obj [("key_expr", .str p1)]) t1 st).state).state.discovery_cancel
      = some t2 :=
  ⟨rfl, rfl, rfl, rfl, rfl, rfl, Ne.symm hp, rfl, rfl, rfl⟩

/-- Witness for C5: restarting with two concrete distinct patterns. -/
theorem c5_restart_discovery_witness :
    ("alpha/**" : String) ≠ "beta/**" ∧
    (op_start_discovery (.obj [("key_expr", .str "beta/**")]) 2
      (op_start_discovery (.obj [("key_expr", .str "alpha/**")]) 1
        AppState.new).state).state.discovery_key_expr = "beta/**" :=
  ⟨by decide,
   (c5_restart_discovery AppState.new "alpha/**" "beta/**" 1 2 (by decide)).2.2.2.2.2.1⟩

/-- A fixed external session used to instantiate dispatcher claims. -/
def session0 : Session :=
  { zid := "z0", peers := [], routers := [], config_source := "default" }

/-- Claim C6, counterexample to the claim as stated: an `execute`
request with the unrecognized operation `frobnicate` is answered with
code −32000 (operation-level failure), not −32601 as the claim reads
the protocol table; the loop does continue. -/
theorem c6_unknown_operation_counterexample :
    (loopIter (.request ⟨"execute", .obj [("operation", .str "frobnicate")], 7⟩)
      session0 "fresh-id" 42 0 AppState.new).1.error.map JsonRpcError.code
      = some (-32000) ∧
    ¬ ((loopIter (.request ⟨"execute", .obj [("operation", .str "frobnicate")], 7⟩)
      session0 "fresh-id" 42 0 AppState.new).1.error.map JsonRpcError.code
      = some (-32601)) ∧
    (loopIter (.request ⟨"execute", .obj [("operation", .str "frobnicate")], 7⟩)
      session0 "fresh-id" 42 0 AppState.new).2.2.2 = false := by
  decide

/-- Claim C6 (amended: an unrecognized method is answered with code
−32601 and an unrecognized operation of an `execute` request with an
operation-level −32000 error, the protocol table's code for
operation-level failures; neither terminates the command loop). -/
theorem c6_unknown_method_or_operation (req : JsonRpcRequest)
    (session : Session) (freshId : String) (freshCancel : Nat) (now : Int)
    (st : AppState) :
    (req.method ≠ "initialize" → req.method ≠ "shutdown" →
      req.method ≠ "execute" →
      (loopIter (.request req) session freshId freshCancel now st).1 =
        err_response req.id (-32601) ("Unknown method: " ++ req.method) ∧
      (loopIter (.request req) session freshId freshCancel now st).2.2.2
        = false) ∧
    (req.method = "execute" →
      ∀ op : String,
      ((req.params.get "operation").bind JValue.as_str).getD "" = op →
      op ∉ ["session_info", "start_discovery", "stop_discovery", "get_topics",
            "subscribe", "unsubscribe", "poll", "list_subscriptions"] →
      (loopIter (.request req) session freshId freshCancel now st).1 =
        err_response req.id (-32000) ("Unknown operation: " ++ op) ∧
      (loopIter (.request req) session freshId freshCancel now st).2.2.2
        = false) := by
  constructor
  · intro h1 h2 h3
    constructor
    · simp [loopIter, handle_request, h1, h2, h3]
    · simp [loopIter, h2]
  · intro hm op hop hnot
    simp only [List.mem_cons, List.not_mem_nil, or_false, not_or] at hnot
    obtain ⟨n1, n2, n3, n4, n5, n6, n7, n8⟩ := hnot
    constructor
    · simp [loopIter, handle_request, handle_execute, hm, hop,
        n1, n2, n3, n4, n5, n6, n7, n8]
    · simp [loopIter, hm]

/-- Claim C7: `poll` and `unsubscribe` on an identifier absent from the
subscription store fail with the not-found message, surface as a −32000
operation-level failure through the dispatcher, and leave the state
unchanged with no cancellation signalled. -/
theorem c7_not_found (st : AppState) (sub_id : String)
    (h : st.subscriptions.lookup sub_id = none) :
    op_poll (.obj [("sub_id", .str sub_id)]) st =
      { result := .error ("subscription not found: " ++ sub_id)
        state := st, signals := [] } ∧
    op_unsubscribe (.obj [("sub_id", .str sub_id)]) st =
      { result := .error ("subscription not found: " ++ sub_id)
        state := st, signals := [] } ∧
    (∀ (session : Session) (freshId : String) (freshCancel : Nat)
        (now : Int) (rid : Nat),
      (handle_execute ⟨"execute",
          .obj [("operation", .str "poll"),
                ("input", .obj [("sub_id", .str sub_id)])],
          rid⟩ session freshId freshCancel now st) =
        (err_response rid (-32000) ("subscription not found: " ++ sub_id),
         st, []) ∧
      (handle_execute ⟨"execute",
          .obj [("operation", .str "unsubscribe"),
                ("input", .obj [("sub_id", .str sub_id)])],
          rid⟩ session freshId freshCancel now st) =
        (err_response rid (-32000) ("subscription not found: " ++ sub_id),
         st, [])) := by
  have hpoll : op_poll (.obj [("sub_id", .str sub_id)]) st =
      { result := .error ("subscription not found: " ++ sub_id)
        state := st, signals := [] } := by
    simp [op_poll, JValue.get, JValue.as_str, h]
  have hunsub : op_unsubscribe (.obj [("sub_id", .str sub_id)]) st =
      { result := .error ("subscription not found: " ++ sub_id)
        state := st, signals := [] } := by
    simp [op_unsubscribe, JValue.get, JValue.as_str, h]
  refine ⟨hpoll, hunsub, ?_⟩
  intro session freshId freshCancel now rid
  have hin1 : (JValue.obj [("operation", JValue.str "poll"),
      ("input", JValue.obj [("sub_id", JValue.str sub_id)])]).get "input" =
      some (.obj [("sub_id", .str sub_id)]) := rfl
  have hop1 : (JValue.obj [("operation", JValue.str "poll"),
      ("input", JValue.obj [("sub_id", JValue.str sub_id)])]).get "operation" =
      some (.str "poll") := rfl
  have hin2 : (JValue.obj [("operation", JValue.str "unsubscribe"),
      ("input", JValue.obj [("sub_id", JValue.str sub_id)])]).get "input" =
      some (.obj [("sub_id", .str sub_id)]) := rfl
  have hop2 : (JValue.obj [("operation", JValue.str "unsubscribe"),
      ("input", JValue.obj [("sub_id", JValue.str sub_id)])]).get "operation" =
      some (.str "unsubscribe") := rfl
  constructor
  · simp [handle_execute, hin1, hop1, JValue.as_str, hpoll]
  · simp [handle_execute, hin2, hop2, JValue.as_str, hunsub]

/-- Witness for C7 at an empty store and the identifier `missing`. -/
theorem c7_not_found_witness :
    AppState.new.subscriptions.lookup "missing" = none ∧
    op_poll (.obj [("sub_id", .str "missing")]) AppState.new =
      { result := .error ("subscription not found: " ++ "missing")
        state := AppState.new, signals := [] } :=
  ⟨rfl, (c7_not_found AppState.new "missing" rfl).1⟩

/-- Claim C8: a line that fails to parse is answered with exactly one
parse-error response, code −32700 under correlation id 0, the state is
untouched and the loop does not terminate. -/
theorem c8_parse_error (e : String) (session : Session) (freshId : String)
    (freshCancel : Nat) (now : Int) (st : AppState) :
    loopIter (.parseFailure e) session freshId freshCancel now st =
      (err_response 0 (-32700) ("Parse error: " ++ e), st, [], false) := rfl

/-- Claim C9: `subscribe` without `key_expr`, and `unsubscribe` / `poll`
without `sub_id`, fail as operation-level errors and leave the shared
state untouched with no cancellation signalled. -/
theorem c9_missing_required_field (input : JValue) (st : AppState)
    (freshId : String) (freshCancel : Nat) (now : Int) :
    (input.get "key_expr" = none →
      op_subscribe input freshId freshCancel now st =
        { result := .error "missing required field: key_expr"
          state := st, signals := [] }) ∧
    (input.get "sub_id" = none →
      op_unsubscribe input st =
        { result := .error "missing required field: sub_id"
          state := st, signals := [] } ∧
      op_poll input st =
        { result := .error "missing required field: sub_id"
          state := st, signals := [] }) := by
  constructor
  · intro h
    simp [op_subscribe, h]
  · intro h
    exact ⟨by simp [op_unsubscribe, h], by simp [op_poll, h]⟩

/-- Claim C10: `start_discovery` whose input has no usable string
`key_expr` (absent or non-string) starts discovery under the wildcard
pattern `**` instead of failing. -/
theorem c10_default_wildcard (input : JValue) (st : AppState)
    (freshCancel : Nat)
    (h : (input.get "key_expr").bind JValue.as_str = none) :
    (op_start_discovery input freshCancel st).result =
      .ok (.obj [("started", .bool true), ("key_expr", .str "**")]) ∧
    (op_start_discovery input freshCancel st).state.discovery_key_expr = "**" ∧
    (op_start_discovery input freshCancel st).state.discovery_active = true := by
  refine ⟨?_, ?_, ?_⟩ <;> simp [op_start_discovery, h]

/-- Witness for C10: `key_expr` supplied as a number, not a string. -/
theorem c10_default_wildcard_witness :
    ((JValue.obj [("key_expr", .num 5)]).get "key_expr").bind JValue.as_str
      = none ∧
    (op_start_discovery (.obj [("key_expr", .num 5)]) 3
      AppState.new).state.discovery_key_expr = "**" :=
  ⟨rfl, (c10_default_wildcard (.obj [("key_expr", .num 5)]) AppState.new 3
    rfl).2.1⟩
